import Mathlib

/-!
Verification of the fpda dashboard's local business logic against its
natural-language specification.

The embedding below translates, from the TypeScript source:
  - the day-requirement multiplier calculation
    (src/src/lib/generateDayReqPdf.ts, src/src/pages/DashboardHome.tsx,
     src/src/pages/DayRequirementsPage.tsx);
  - the batch item-creation submission handler
    (src/src/components/forms/ItemFormFields.tsx);
  - the authentication context with its persisted session record
    (src/src/contexts/AuthContext.tsx);
  - the duplicate-date guard of the Dashboard Home day-requirements dialog
    (src/src/pages/DashboardHome.tsx).

JavaScript numbers are modelled as rationals; a value that may be missing or
NaN (a failed Number(...) parse) is modelled as an Option.
-/

namespace FPDA

/-- JS coercion idiom `Number(x) || d`: `none` models a missing field or a
non-numeric value (whose Number(...) is NaN, falsy); a parsed 0 is falsy as
well, so both fall back to the default `d`. -/
def numOr : Option ℚ → ℚ → ℚ
  | none, d => d
  | some v, d => if v = 0 then d else v

/-- kgValue as computed in DashboardHome.tsx (line 673) and
generateDayReqPdf.ts (line 35): `totpkt > 0 ? totalReq / totpkt : 0`. -/
def kgValue (totalReq totpkt : ℚ) : ℚ :=
  if totpkt > 0 then totalReq / totpkt else 0

/-- roundValue: `Math.ceil(kgValue)` (DashboardHome.tsx line 675,
generateDayReqPdf.ts line 36). -/
def roundValue (totalReq totpkt : ℚ) : ℤ :=
  ⌈kgValue totalReq totpkt⌉

/-- DashboardHome.tsx line 728: `(Number(reqQty) || 0) * totalDailyRequirementRound`. -/
def getMultipliedQty (totalDailyRequirementRound : ℤ) (reqQty : Option ℚ) : ℚ :=
  numOr reqQty 0 * (totalDailyRequirementRound : ℚ)

/-- DayRequirementsPage.tsx lines 171-174: the same name, but the row quantity
is multiplied by the raw aggregate `totalDailyRequirement` with no packaging
ratio applied. -/
def dayReqPageMultipliedQty (totalDailyRequirement : ℚ) (reqQty : Option ℚ) : ℚ :=
  numOr reqQty 0 * totalDailyRequirement

/-- success branch of fetchRecipeTotpkt (DashboardHome.tsx lines 670-676):
`totpkt = Number(response.data.recipe_totpkt) || 0`, then kgValue and its
ceiling. Returns (recipeTotpkt, totalDailyRequirementKg, totalDailyRequirementRound). -/
def fetchRecipeTotpktCompute (recipe_totpkt : Option ℚ) (totalDailyRequirement : ℚ) :
    ℚ × ℚ × ℤ :=
  let totpkt := numOr recipe_totpkt 0
  (totpkt, kgValue totalDailyRequirement totpkt, roundValue totalDailyRequirement totpkt)

/-- one recipe ingredient row as consumed by generateDayReqPdf. req_qty is the
raw numeric field; the source applies `Number(item.req_qty) || 0` at use. -/
structure RecipeItem where
  item_name : String
  cat_name : String
  unit_short : String
  req_qty : Option ℚ
deriving Repr, DecidableEq

/-- the numbers generateDayReqPdf prints: header totals and the per-row
Total Qty column values, in row order. -/
structure PdfReport where
  totalReq : ℚ
  kg : ℚ
  round : ℤ
  rowTotals : List ℚ
deriving Repr, DecidableEq

/-- numeric core of generateDayReqPdf (generateDayReqPdf.ts lines 27-36 and
84-89). `itemsRes = none` models a failed or empty items fetch (the source
falls back to []); `totpktRes = none` models a failed totpkt fetch, and
`some raw` a successful response whose recipe_totpkt field is `raw`; in both
paths the source falls back to 1, via `Number(totpktRes.data.recipe_totpkt) || 1`
on success and the literal 1 otherwise. -/
def generateDayReqPdfCompute (day_tot_req : Option ℚ) (itemsRes : Option (List RecipeItem))
    (totpktRes : Option (Option ℚ)) : PdfReport :=
  let items := itemsRes.getD []
  let totpkt : ℚ :=
    match totpktRes with
    | some raw => numOr raw 1
    | none => 1
  let totalReq := numOr day_tot_req 0
  { totalReq := totalReq
    kg := kgValue totalReq totpkt
    round := roundValue totalReq totpkt
    rowTotals := items.map (fun item => numOr item.req_qty 0 * (roundValue totalReq totpkt : ℚ)) }

/-! Batch item creation (src/src/components/forms/ItemFormFields.tsx, batch variant). -/

/-- one entry row of the batch item form. -/
structure ItemRow where
  id : String
  item_name : String
  cat_name : String
  unit_short : String
deriving Repr, DecidableEq

/-- the payload of one itemApi.create network call. -/
structure ItemCreateReq where
  item_name : String
  cat_name : String
  unit_short : String
  created_by : String
deriving Repr, DecidableEq

/-- the four mutually exclusive ways handleSubmit can end before or at the
point network requests are issued (ItemFormFields.tsx lines 245-280): the
three early returns show a toast and issue no request; only submit issues
one create call per valid row. -/
inductive BatchOutcome where
  | validationError
  | duplicateExisting (names : List String)
  | duplicateInBatch
  | submit (requests : List ItemCreateReq)
deriving Repr, DecidableEq

/-- JS String.prototype.trim: drop leading and trailing whitespace. Written
over the character list so it is structurally recursive. -/
def jsTrim (s : String) : String :=
  ⟨(((s.data.dropWhile Char.isWhitespace).reverse).dropWhile Char.isWhitespace).reverse⟩

/-- JS String.prototype.toLowerCase, over the character list. -/
def jsToLower (s : String) : String :=
  ⟨s.data.map Char.toLower⟩

/-- a row passes the valid-row filter when all three fields are truthy:
`rows.filter(r => r.item_name.trim() && r.cat_name && r.unit_short)`. -/
def validRowFilter (r : ItemRow) : Bool :=
  jsTrim r.item_name != "" && r.cat_name != "" && r.unit_short != ""

/-- the JS in-batch duplicate detector
`namesInBatch.filter((name, i) => namesInBatch.indexOf(name) !== i)`. -/
def batchDuplicates (namesInBatch : List String) : List String :=
  (namesInBatch.enum.filter (fun p => namesInBatch.indexOf p.2 != p.1)).map (fun p => p.2)

/-- the decision phase of handleSubmit (ItemFormFields.tsx lines 245-266 and
the request construction at 268-277): filter valid rows, reject an empty
batch, reject any trimmed lower-cased name present in the previously fetched
existingNames set, reject in-batch duplicate names, otherwise build the list
of create requests. existingNames holds the fetched item names already
lower-cased, as built on line 223. -/
def handleSubmitBatch (user_name : String) (existingNames : List String)
    (rows : List ItemRow) : BatchOutcome :=
  let validRows := rows.filter validRowFilter
  if validRows.length = 0 then .validationError
  else
    let duplicates := validRows.filter
      (fun r => existingNames.contains (jsToLower (jsTrim r.item_name)))
    if duplicates.length > 0 then .duplicateExisting (duplicates.map (fun d => jsTrim d.item_name))
    else
      let namesInBatch := validRows.map (fun r => jsToLower (jsTrim r.item_name))
      if (batchDuplicates namesInBatch).length > 0 then .duplicateInBatch
      else
        .submit (validRows.map (fun row =>
          { item_name := jsTrim row.item_name, cat_name := row.cat_name,
            unit_short := row.unit_short, created_by := user_name }))

/-- JS `results.every(r => r.status === "success" || r.status === "ok")` over
the status strings of the N parallel create responses. -/
def allSuccess (results : List String) : Bool :=
  results.all (fun r => r == "success" || r == "ok")

/-- what the user is told after the parallel creates resolve
(ItemFormFields.tsx lines 281-289): a success toast with only the row count,
or the generic failure toast with no per-record detail. -/
inductive BatchReport where
  | created (count : Nat)
  | someItemsFailed
deriving Repr, DecidableEq

/-- the reporting phase of handleSubmit: all statuses success/ok gives the
success toast with the count, anything else the generic error toast. -/
def reportResults (results : List String) : BatchReport :=
  if allSuccess results then .created results.length else .someItemsFailed

/-- how a submission attempt ends: blocked before any network call, or
reported after the issued requests resolved. -/
inductive SubmitResult where
  | blocked (outcome : BatchOutcome)
  | reported (report : BatchReport)
deriving Repr, DecidableEq

/-- the whole handleSubmit run. server gives the status string the backend
returns for each request. Returns the list of create requests actually
issued and how the run ended. After the responses arrive the source issues
no further requests: there is no rollback or retry, so the issued list is
exactly the submit list, each request once, whatever the statuses. -/
def runBatch (user_name : String) (existingNames : List String) (rows : List ItemRow)
    (server : ItemCreateReq → String) : List ItemCreateReq × SubmitResult :=
  match handleSubmitBatch user_name existingNames rows with
  | .submit reqs => (reqs, .reported (reportResults (reqs.map server)))
  | outcome => ([], .blocked outcome)

/-! Authentication context (src/src/contexts/AuthContext.tsx). -/

/-- the logged-in user record (src/unnamed api file, interface UserSession). -/
structure UserSession where
  user_name : String
  user_code : String
  role_selection : String
deriving Repr, DecidableEq

/-- a JSON value, the image of JSON.parse on a well-formed string. -/
inductive Json where
  | null
  | bool (b : Bool)
  | num (q : ℚ)
  | str (s : String)
  | arr (elems : List Json)
  | obj (fields : List (String × Json))
deriving Repr

/-- a string persisted in localStorage, at the granularity JSON.parse
observes it: either it parses to a unique JSON value, or JSON.parse throws
on it. JSON.stringify always yields a string of the first kind, carrying
the stringified value. -/
inductive StoredVal where
  | parsed (j : Json)
  | malformed
deriving Repr

/-- JSON.stringify of a UserSession object, whose fields enumerate in
declaration order. -/
def UserSession.toJson (s : UserSession) : Json :=
  .obj [("user_name", .str s.user_name), ("user_code", .str s.user_code),
        ("role_selection", .str s.role_selection)]

/-- localStorage.getItem. -/
def storageGet : List (String × StoredVal) → String → Option StoredVal
  | [], _ => none
  | e :: rest, k => if e.1 = k then some e.2 else storageGet rest k

/-- localStorage.removeItem. -/
def storageRemove : List (String × StoredVal) → String → List (String × StoredVal)
  | [], _ => []
  | e :: rest, k => if e.1 = k then storageRemove rest k else e :: storageRemove rest k

/-- localStorage.setItem: replaces whatever was stored under the key with the
single new record. -/
def storageSet (st : List (String × StoredVal)) (k : String) (v : StoredVal) :
    List (String × StoredVal) :=
  (k, v) :: storageRemove st k

/-- AuthContext.tsx line 14. -/
def SESSION_KEY : String := "fpda_user_session"

/-- the AuthProvider state: the in-memory user (held as the parsed JSON value,
since the restore path passes whatever JSON.parse returned straight to
setUser), the loading flag, and the browser storage. -/
structure AuthState where
  user : Option Json
  isLoading : Bool
  storage : List (String × StoredVal)

/-- AuthProvider initial state (AuthContext.tsx lines 17-18): no user,
isLoading true, over whatever localStorage currently holds. -/
def initialAuthState (storage : List (String × StoredVal)) : AuthState :=
  { user := none, isLoading := true, storage := storage }

/-- login (AuthContext.tsx lines 35-38): set the user and persist its
JSON.stringify under SESSION_KEY. -/
def login (a : AuthState) (userData : UserSession) : AuthState :=
  { a with user := some userData.toJson,
           storage := storageSet a.storage SESSION_KEY (.parsed userData.toJson) }

/-- logout (AuthContext.tsx lines 40-43): clear the user and remove the
record under SESSION_KEY. -/
def logout (a : AuthState) : AuthState :=
  { a with user := none, storage := storageRemove a.storage SESSION_KEY }

/-- the mount effect (AuthContext.tsx lines 20-33): read SESSION_KEY; if a
record is there, JSON.parse it and set the user on success, or catch the
parse error and remove the record; in every path end with isLoading false. -/
def restoreOnMount (a : AuthState) : AuthState :=
  let a1 :=
    match storageGet a.storage SESSION_KEY with
    | some (.parsed j) => { a with user := some j }
    | some .malformed => { a with storage := storageRemove a.storage SESSION_KEY }
    | none => a
  { a1 with isLoading := false }

/-! Duplicate-date guard of the Dashboard Home day-requirements dialog
(src/src/pages/DashboardHome.tsx). -/

/-- one fetched existing day-requirement header row. -/
structure ExistingRequirement where
  day_req_date : String
  recipe_type : String
  day_tot_req : String
deriving Repr, DecidableEq

/-- JS `s.split("T")[0]`: the prefix before the first T, over the character
list so it is structurally recursive. -/
def dateOnly (s : String) : String :=
  ⟨s.data.takeWhile (fun c => c != 'T')⟩

/-- DashboardHome.tsx lines 570-574: a candidate date (already formatted
yyyy-MM-dd) is used when some fetched header has the same calendar day. -/
def isDateAlreadyUsed (existingRequirements : List ExistingRequirement)
    (formatted : String) : Bool :=
  existingRequirements.any (fun r => dateOnly r.day_req_date == formatted)

/-- the dialog state the guard touches: the fetched headers, the selected
date (kept as its yyyy-MM-dd rendering), and whether the duplicate-date
toast is showing. -/
structure DayReqDialogState where
  existingRequirements : List ExistingRequirement
  selectedDate : Option String
  duplicateDateToast : Bool
deriving Repr, DecidableEq

/-- net effect of the user picking a date in the dialog: setSelectedDate
runs, then the date effect (DashboardHome.tsx lines 589-610) validates it;
a duplicate shows the duplicate-date toast and clears the selection back to
undefined, otherwise the selection stands (and data loading proceeds). The
subsequent handleSubmit posts a header only when selectedDate is set. -/
def selectDate (s : DayReqDialogState) (formatted : String) : DayReqDialogState :=
  if isDateAlreadyUsed s.existingRequirements formatted then
    { s with selectedDate := none, duplicateDateToast := true }
  else
    { s with selectedDate := some formatted, duplicateDateToast := false }

/-! Helper lemmas. -/

/-- JS `Number(x) || 0` is the identity on present values: a present 0 falls
back to the default 0, which is the value itself. -/
lemma numOr_some_zero (v : ℚ) : numOr (some v) 0 = v := by
  by_cases h : v = 0 <;> simp [numOr, h]

/-- JS `Number(x) || d` keeps a present nonzero value. -/
lemma numOr_some_of_ne (v d : ℚ) (h : v ≠ 0) : numOr (some v) d = v := by
  simp [numOr, h]

/-- when the JS in-batch duplicate filter finds nothing, the name list has no
duplicates: every element's first index is its own index, so positions with
equal elements coincide. -/
lemma nodup_of_batchDuplicates_eq_nil (l : List String) (h : batchDuplicates l = []) :
    l.Nodup := by
  have hfil : l.enum.filter (fun p => l.indexOf p.2 != p.1) = [] := by
    have := congrArg List.length h
    simp only [batchDuplicates, List.length_map] at this
    exact List.length_eq_zero.mp this
  have hidx : ∀ i x, (i, x) ∈ l.enum → l.indexOf x = i := by
    intro i x hmem
    have := List.filter_eq_nil_iff.mp hfil (i, x) hmem
    simpa using this
  rw [List.nodup_iff_injective_getElem]
  intro i j hij
  have hi : (i.1, l[i.1]) ∈ l.enum := by
    rw [List.mk_mem_enum_iff_getElem?]
    exact List.getElem?_eq_getElem i.2
  have hj : (j.1, l[j.1]) ∈ l.enum := by
    rw [List.mk_mem_enum_iff_getElem?]
    exact List.getElem?_eq_getElem j.2
  have h1 := hidx i.1 l[i.1] hi
  have h2 := hidx j.1 l[j.1] hj
  have hij2 : l[i.1] = l[j.1] := hij
  apply Fin.ext
  rw [← h1, ← h2, hij2]

/-- storageGet after storageSet at the same key finds the new value. -/
lemma storageGet_storageSet_self (st : List (String × StoredVal)) (k : String) (v : StoredVal) :
    storageGet (storageSet st k v) k = some v := by
  simp [storageSet, storageGet]

/-- storageRemove leaves nothing under the removed key. -/
lemma storageGet_storageRemove_self (st : List (String × StoredVal)) (k : String) :
    storageGet (storageRemove st k) k = none := by
  induction st with
  | nil => simp [storageRemove, storageGet]
  | cons e rest ih =>
    by_cases h : e.1 = k <;> simp [storageRemove, storageGet, h, ih]

/-- storageRemove does not touch other keys. -/
lemma storageGet_storageRemove_ne (st : List (String × StoredVal)) (k k2 : String)
    (h : k2 ≠ k) : storageGet (storageRemove st k) k2 = storageGet st k2 := by
  induction st with
  | nil => simp [storageRemove]
  | cons e rest ih =>
    have hkk2 : ¬(k = k2) := fun hc => h hc.symm
    by_cases he : e.1 = k
    · simp [storageRemove, storageGet, he, hkk2, ih]
    · by_cases he2 : e.1 = k2 <;> simp [storageRemove, storageGet, he, he2, h, ih]

/-- after removing a key no entry under it remains. -/
lemma countP_storageRemove (st : List (String × StoredVal)) (k : String) :
    (storageRemove st k).countP (fun e => e.1 == k) = 0 := by
  induction st with
  | nil => simp [storageRemove]
  | cons e rest ih =>
    by_cases h : e.1 = k <;> simp [storageRemove, List.countP_cons, h, ih]

/-! Claim theorems. -/

/-- Claim C1: for every day_tot_req and every recipe_totpkt > 0 and every
ingredient list, kgValue = day_tot_req / recipe_totpkt, roundValue is its
ceiling, and each ingredient row's total quantity is req_qty * roundValue
(both in the PDF pipeline and in the Dashboard Home getMultipliedQty); in
particular day_tot_req=120, recipe_totpkt=50 gives kgValue=2.4, roundValue=3,
and req_qty=2 gives totalQty=6. -/
theorem C1_day_req_multiplier (dtr tp : ℚ) (htp : 0 < tp) :
    kgValue dtr tp = dtr / tp
    ∧ roundValue dtr tp = ⌈dtr / tp⌉
    ∧ (∀ items : List RecipeItem,
        (generateDayReqPdfCompute (some dtr) (some items) (some (some tp))).rowTotals =
          items.map (fun item => numOr item.req_qty 0 * (roundValue dtr tp : ℚ)))
    ∧ (∀ q : ℚ, getMultipliedQty (roundValue dtr tp) (some q) = q * (roundValue dtr tp : ℚ))
    ∧ kgValue 120 50 = 12 / 5
    ∧ roundValue 120 50 = 3
    ∧ getMultipliedQty (roundValue 120 50) (some 2) = 6 := by
  have hkg : kgValue dtr tp = dtr / tp := by rw [kgValue, if_pos htp]
  have hround50 : roundValue 120 50 = 3 := by
    rw [roundValue, kgValue, if_pos (by norm_num : (0:ℚ) < 50), Int.ceil_eq_iff]
    norm_num
  refine ⟨hkg, by rw [roundValue, hkg], ?_, ?_, ?_, hround50, ?_⟩
  · intro items
    simp only [generateDayReqPdfCompute, numOr_some_zero,
      numOr_some_of_ne tp 1 (ne_of_gt htp), Option.getD_some]
  · intro q
    rw [getMultipliedQty, numOr_some_zero]
  · rw [kgValue, if_pos (by norm_num : (0:ℚ) < 50)]; norm_num
  · rw [getMultipliedQty, numOr_some_zero, hround50]; norm_num

/-- Claim C1 witness at day_tot_req=120, recipe_totpkt=50, one ingredient
with req_qty=2. -/
theorem C1_day_req_multiplier_witness :
    kgValue 120 50 = 120 / 50
    ∧ roundValue 120 50 = ⌈(120 : ℚ) / 50⌉
    ∧ (generateDayReqPdfCompute (some 120) (some [⟨"Rice", "Grain", "kg", some 2⟩])
        (some (some 50))).rowTotals =
        ([⟨"Rice", "Grain", "kg", some 2⟩] : List RecipeItem).map
          (fun item => numOr item.req_qty 0 * ((roundValue 120 50 : ℤ) : ℚ))
    ∧ getMultipliedQty (roundValue 120 50) (some 2) = 2 * ((roundValue 120 50 : ℤ) : ℚ)
    ∧ kgValue 120 50 = 12 / 5
    ∧ roundValue 120 50 = 3
    ∧ getMultipliedQty (roundValue 120 50) (some 2) = 6 := by
  obtain ⟨h1, h2, h3, h4, h5, h6, h7⟩ :=
    C1_day_req_multiplier 120 50 (by norm_num)
  exact ⟨h1, h2, h3 [⟨"Rice", "Grain", "kg", some 2⟩], h4 2, h5, h6, h7⟩

/-- Claim C2: the Day Requirements page multiplier (req_qty times the raw
aggregate, no ratio) and the Dashboard Home / PDF multiplier (req_qty times
ceil(day_tot_req / recipe_totpkt)) differ on a concrete input:
day_tot_req=120, recipe_totpkt=50, req_qty=2 gives 240 on one page and 6 on
the other, so the two embedded multiplier functions are not equal. -/
theorem C2_multiplier_variants_diverge :
    dayReqPageMultipliedQty 120 (some 2) = 240
    ∧ getMultipliedQty (roundValue 120 50) (some 2) = 6
    ∧ dayReqPageMultipliedQty 120 (some 2) ≠ getMultipliedQty (roundValue 120 50) (some 2) := by
  have hround50 : roundValue 120 50 = 3 := by
    rw [roundValue, kgValue, if_pos (by norm_num : (0:ℚ) < 50), Int.ceil_eq_iff]
    norm_num
  have h1 : dayReqPageMultipliedQty 120 (some 2) = 240 := by
    rw [dayReqPageMultipliedQty, numOr_some_zero]; norm_num
  have h2 : getMultipliedQty (roundValue 120 50) (some 2) = 6 := by
    rw [getMultipliedQty, numOr_some_zero, hround50]; norm_num
  exact ⟨h1, h2, by rw [h1, h2]; norm_num⟩

/-- Claim C3 counterexample: in the PDF generator a recipe_totpkt of 0 is
coerced with `|| 1` to 1, not 0, so day_tot_req=120 with recipe_totpkt=0 and
one ingredient with req_qty=2 yields roundValue=120 and total 240, not the
all-zero output the claim states. -/
theorem C3_counterexample :
    (generateDayReqPdfCompute (some 120) (some [⟨"Rice", "Grain", "kg", some 2⟩])
        (some (some 0))).round = 120
    ∧ (generateDayReqPdfCompute (some 120) (some [⟨"Rice", "Grain", "kg", some 2⟩])
        (some (some 0))).rowTotals = [240]
    ∧ ¬((generateDayReqPdfCompute (some 120) (some [⟨"Rice", "Grain", "kg", some 2⟩])
        (some (some 0))).round = 0
      ∧ (generateDayReqPdfCompute (some 120) (some [⟨"Rice", "Grain", "kg", some 2⟩])
        (some (some 0))).rowTotals = [0]) := by
  have hnum : numOr (some (0 : ℚ)) 1 = 1 := by simp [numOr]
  have hr : roundValue (120 : ℚ) 1 = 120 := by
    rw [roundValue, kgValue, if_pos (by norm_num : (0:ℚ) < 1), div_one, Int.ceil_eq_iff]
    norm_num
  have hround : (generateDayReqPdfCompute (some 120) (some [⟨"Rice", "Grain", "kg", some 2⟩])
      (some (some 0))).round = 120 := by
    simp only [generateDayReqPdfCompute, hnum, numOr_some_zero]
    exact hr
  refine ⟨hround, ?_, ?_⟩
  · simp only [generateDayReqPdfCompute, hnum, numOr_some_zero, Option.getD_some,
      List.map_cons, List.map_nil, hr]
    norm_num
  · intro hc
    rw [hround] at hc
    exact absurd hc.1 (by norm_num)

/-- Claim C3 amended: the Dashboard Home calculator coerces a 0, missing or
non-numeric recipe_totpkt to 0 and yields kgValue=0, roundValue=0 and total 0
for every ingredient, silently; the PDF generator instead coerces such a
recipe_totpkt to 1, so its multiplier is ceil(day_tot_req). -/
theorem C3_amended_silent_zero (dtr : ℚ) (raw : Option ℚ)
    (h : raw = none ∨ raw = some 0) :
    fetchRecipeTotpktCompute raw dtr = (0, 0, 0)
    ∧ (∀ q : Option ℚ, getMultipliedQty (fetchRecipeTotpktCompute raw dtr).2.2 q = 0)
    ∧ (∀ itemsRes, (generateDayReqPdfCompute (some dtr) itemsRes (some raw)).round = ⌈dtr⌉) := by
  have hnum : numOr raw 0 = 0 := by
    rcases h with h | h <;> simp [numOr, h]
  have hnum1 : numOr raw 1 = 1 := by
    rcases h with h | h <;> simp [numOr, h]
  have hkg : kgValue dtr 0 = 0 := by rw [kgValue, if_neg (by norm_num)]
  have hround : roundValue dtr 0 = 0 := by rw [roundValue, hkg]; exact Int.ceil_zero
  refine ⟨?_, ?_, ?_⟩
  · rw [fetchRecipeTotpktCompute]
    simp only [hnum, hkg, hround]
  · intro q
    rw [fetchRecipeTotpktCompute]
    simp only [hnum, hround, getMultipliedQty]
    norm_num
  · intro itemsRes
    simp only [generateDayReqPdfCompute, hnum1, numOr_some_zero]
    rw [roundValue, kgValue, if_pos (by norm_num : (0:ℚ) < 1), div_one]

/-- Claim C3 amended witness: recipe_totpkt present as 0, day_tot_req=120. -/
theorem C3_amended_silent_zero_witness :
    fetchRecipeTotpktCompute (some 0) 120 = (0, 0, 0)
    ∧ getMultipliedQty (fetchRecipeTotpktCompute (some 0) 120).2.2 (some 2) = 0
    ∧ (generateDayReqPdfCompute (some 120) (some [⟨"Rice", "Grain", "kg", some 2⟩])
        (some (some 0))).round = ⌈(120 : ℚ)⌉ := by
  obtain ⟨h1, h2, h3⟩ := C3_amended_silent_zero 120 (some 0) (Or.inr rfl)
  exact ⟨h1, h2 (some 2), h3 (some [⟨"Rice", "Grain", "kg", some 2⟩])⟩

/-- Claim C6: the per-ingredient total req_qty * roundValue is monotonically
non-decreasing in the ingredient quantity and in the multiplier, over
non-negative inputs. -/
theorem C6_totalQty_monotone (q1 q2 : ℚ) (r1 r2 : ℤ)
    (hq1 : 0 ≤ q1) (hq : q1 ≤ q2) (hr1 : 0 ≤ r1) (hr : r1 ≤ r2) :
    getMultipliedQty r1 (some q1) ≤ getMultipliedQty r2 (some q2) := by
  rw [getMultipliedQty, getMultipliedQty, numOr_some_zero, numOr_some_zero]
  have hr1q : (0 : ℚ) ≤ (r1 : ℚ) := by exact_mod_cast hr1
  have hrq : (r1 : ℚ) ≤ (r2 : ℚ) := by exact_mod_cast hr
  exact mul_le_mul hq hrq hr1q (le_trans hq1 hq)

/-- Claim C6 witness: 2 ≤ 3 and 1 ≤ 4 give 2*1 ≤ 3*4. -/
theorem C6_totalQty_monotone_witness :
    getMultipliedQty 1 (some 2) ≤ getMultipliedQty 4 (some 3) :=
  C6_totalQty_monotone 2 3 1 4 (by norm_num) (by norm_num) (by norm_num) (by norm_num)

/-- Claim C7: the day-requirement calculator is pure and deterministic —
identical inputs give identical outputs; each row's output is a function of
that row's req_qty and the shared multiplier only, the multiplier does not
depend on the rows, and permuting the ingredient rows permutes the outputs
identically. -/
theorem C7_calculator_pure_order_independent (d : Option ℚ) (t : Option (Option ℚ))
    (items items2 : List RecipeItem) (hperm : items.Perm items2) :
    generateDayReqPdfCompute d (some items) t = generateDayReqPdfCompute d (some items) t
    ∧ (generateDayReqPdfCompute d (some items) t).round
        = (generateDayReqPdfCompute d (some items2) t).round
    ∧ (generateDayReqPdfCompute d (some items) t).rowTotals =
        items.map (fun item =>
          numOr item.req_qty 0 * ((generateDayReqPdfCompute d (some items) t).round : ℚ))
    ∧ ((generateDayReqPdfCompute d (some items) t).rowTotals).Perm
        ((generateDayReqPdfCompute d (some items2) t).rowTotals) := by
  refine ⟨rfl, rfl, ?_, ?_⟩
  · simp only [generateDayReqPdfCompute, Option.getD_some]
  · simp only [generateDayReqPdfCompute, Option.getD_some]
    exact hperm.map _

/-- Claim C7 witness: swapping two concrete ingredient rows permutes the two
row outputs and changes nothing else. -/
theorem C7_calculator_pure_order_independent_witness :
    generateDayReqPdfCompute (some 120)
        (some [⟨"Rice", "Grain", "kg", some 2⟩, ⟨"Salt", "Spice", "g", some 5⟩]) (some (some 50))
      = generateDayReqPdfCompute (some 120)
        (some [⟨"Rice", "Grain", "kg", some 2⟩, ⟨"Salt", "Spice", "g", some 5⟩]) (some (some 50))
    ∧ (generateDayReqPdfCompute (some 120)
        (some [⟨"Rice", "Grain", "kg", some 2⟩, ⟨"Salt", "Spice", "g", some 5⟩])
        (some (some 50))).round
      = (generateDayReqPdfCompute (some 120)
        (some [⟨"Salt", "Spice", "g", some 5⟩, ⟨"Rice", "Grain", "kg", some 2⟩])
        (some (some 50))).round
    ∧ (generateDayReqPdfCompute (some 120)
        (some [⟨"Rice", "Grain", "kg", some 2⟩, ⟨"Salt", "Spice", "g", some 5⟩])
        (some (some 50))).rowTotals =
        ([⟨"Rice", "Grain", "kg", some 2⟩, ⟨"Salt", "Spice", "g", some 5⟩] : List RecipeItem).map
          (fun item => numOr item.req_qty 0 *
            ((generateDayReqPdfCompute (some 120)
              (some [⟨"Rice", "Grain", "kg", some 2⟩, ⟨"Salt", "Spice", "g", some 5⟩])
              (some (some 50))).round : ℚ))
    ∧ ((generateDayReqPdfCompute (some 120)
        (some [⟨"Rice", "Grain", "kg", some 2⟩, ⟨"Salt", "Spice", "g", some 5⟩])
        (some (some 50))).rowTotals).Perm
        ((generateDayReqPdfCompute (some 120)
          (some [⟨"Salt", "Spice", "g", some 5⟩, ⟨"Rice", "Grain", "kg", some 2⟩])
          (some (some 50))).rowTotals) :=
  C7_calculator_pure_order_independent (some 120) (some (some 50))
    [⟨"Rice", "Grain", "kg", some 2⟩, ⟨"Salt", "Spice", "g", some 5⟩]
    [⟨"Salt", "Spice", "g", some 5⟩, ⟨"Rice", "Grain", "kg", some 2⟩]
    (List.Perm.swap (⟨"Salt", "Spice", "g", some 5⟩ : RecipeItem)
      (⟨"Rice", "Grain", "kg", some 2⟩ : RecipeItem) [])

/-- Claim C4: if any valid row's trimmed lower-cased item name is in the
fetched existing-names set, or duplicates another row of the batch, then
handleSubmit ends in one of the blocked outcomes: it never reaches submit,
and the run issues no network request for any row of the batch. -/
theorem C4_duplicates_block_batch (u : String) (existingNames : List String)
    (rows : List ItemRow)
    (hdup :
      (∃ r, r ∈ rows.filter validRowFilter ∧
          existingNames.contains (jsToLower (jsTrim r.item_name)) = true)
      ∨ ¬((rows.filter validRowFilter).map (fun r => jsToLower (jsTrim r.item_name))).Nodup) :
    (∀ reqs, handleSubmitBatch u existingNames rows ≠ .submit reqs)
    ∧ (∀ server, runBatch u existingNames rows server =
        ([], .blocked (handleSubmitBatch u existingNames rows))) := by
  have hmain : ∀ reqs, handleSubmitBatch u existingNames rows ≠ .submit reqs := by
    intro reqs
    simp only [handleSubmitBatch]
    split
    · simp
    · split
      · simp
      · split
        · simp
        · rename_i hvalid hexist hbatch
          exfalso
          rcases hdup with ⟨r, hrmem, hrcont⟩ | hnodup
          · have hrdup : r ∈ (rows.filter validRowFilter).filter
                (fun r => existingNames.contains (jsToLower (jsTrim r.item_name))) :=
              List.mem_filter.mpr ⟨hrmem, hrcont⟩
            have : 0 < ((rows.filter validRowFilter).filter
                (fun r => existingNames.contains (jsToLower (jsTrim r.item_name)))).length :=
              List.length_pos.mpr (List.ne_nil_of_mem hrdup)
            exact hexist this
          · have hbnil : batchDuplicates
                ((rows.filter validRowFilter).map (fun r => jsToLower (jsTrim r.item_name))) = [] := by
              have := Nat.eq_zero_of_not_pos hbatch
              exact List.length_eq_zero.mp this
            exact hnodup (nodup_of_batchDuplicates_eq_nil _ hbnil)
  refine ⟨hmain, ?_⟩
  intro server
  cases hout : handleSubmitBatch u existingNames rows with
  | validationError => simp [runBatch, hout]
  | duplicateExisting names => simp [runBatch, hout]
  | duplicateInBatch => simp [runBatch, hout]
  | submit reqs => exact absurd hout (hmain reqs)

/-- Claim C4 witness: a batch of three rows whose second row duplicates the
existing name rice case-insensitively after trimming is fully blocked. -/
theorem C4_duplicates_block_batch_witness :
    handleSubmitBatch ("u") ["rice"]
        [⟨"1", "Wheat", "Grain", "kg"⟩, ⟨"2", " rIce ", "Grain", "kg"⟩, ⟨"3", "Dal", "Grain", "kg"⟩]
      ≠ .submit []
    ∧ runBatch ("u") ["rice"]
        [⟨"1", "Wheat", "Grain", "kg"⟩, ⟨"2", " rIce ", "Grain", "kg"⟩, ⟨"3", "Dal", "Grain", "kg"⟩]
        (fun _ => "success")
      = ([], .blocked (handleSubmitBatch ("u") ["rice"]
          [⟨"1", "Wheat", "Grain", "kg"⟩, ⟨"2", " rIce ", "Grain", "kg"⟩, ⟨"3", "Dal", "Grain", "kg"⟩])) := by
  have h := C4_duplicates_block_batch ("u") ["rice"]
    [⟨"1", "Wheat", "Grain", "kg"⟩, ⟨"2", " rIce ", "Grain", "kg"⟩, ⟨"3", "Dal", "Grain", "kg"⟩]
    (Or.inl ⟨⟨"2", " rIce ", "Grain", "kg"⟩, by decide, by decide⟩)
  exact ⟨h.1 [], h.2 (fun _ => "success")⟩

/-- Claim C5: when the batch reaches submission and at least one of the N
parallel creates returns a status that is neither success nor ok, the whole
batch is reported with the generic failure report, carrying no per-record
detail (any two failing result lists produce the same report), and the
issued requests are exactly the submit list — nothing is rolled back or
retried. -/
theorem C5_partial_failure_reported_generic (u : String) (existingNames : List String)
    (rows : List ItemRow) (server : ItemCreateReq → String) (reqs : List ItemCreateReq)
    (hsub : handleSubmitBatch u existingNames rows = .submit reqs)
    (hfail : ∃ r, r ∈ reqs ∧ server r ≠ "success" ∧ server r ≠ "ok") :
    runBatch u existingNames rows server = (reqs, .reported .someItemsFailed)
    ∧ reportResults (reqs.map server) = .someItemsFailed
    ∧ (∀ results results2 : List String, allSuccess results = false →
        allSuccess results2 = false → reportResults results = reportResults results2) := by
  have hall : allSuccess (reqs.map server) = false := by
    obtain ⟨r, hr, h1, h2⟩ := hfail
    rw [allSuccess, List.all_eq_false]
    exact ⟨server r, List.mem_map_of_mem server hr, by simp [h1, h2]⟩
  refine ⟨?_, ?_, ?_⟩
  · simp [runBatch, hsub, reportResults, hall]
  · simp [reportResults, hall]
  · intro results results2 hr1 hr2
    simp [reportResults, hr1, hr2]

/-- Claim C5 witness: two rows submitted, the backend failing the second;
the batch reports the generic failure and issues exactly the two creates. -/
theorem C5_partial_failure_reported_generic_witness :
    runBatch ("u") [] [⟨"1", "Rice", "Grain", "kg"⟩, ⟨"2", "Dal", "Grain", "kg"⟩]
        (fun req => if req.item_name == "Dal" then ("error") else ("success"))
      = ([⟨"Rice", "Grain", "kg", "u"⟩, ⟨"Dal", "Grain", "kg", "u"⟩], .reported .someItemsFailed)
    ∧ reportResults (([⟨"Rice", "Grain", "kg", "u"⟩, ⟨"Dal", "Grain", "kg", "u"⟩] :
        List ItemCreateReq).map
          (fun req => if req.item_name == "Dal" then ("error") else ("success")))
      = .someItemsFailed
    ∧ reportResults ["error"] = reportResults ["ok", "error"] := by
  have h := C5_partial_failure_reported_generic ("u") []
    [⟨"1", "Rice", "Grain", "kg"⟩, ⟨"2", "Dal", "Grain", "kg"⟩]
    (fun req => if req.item_name == "Dal" then ("error") else ("success"))
    [⟨"Rice", "Grain", "kg", "u"⟩, ⟨"Dal", "Grain", "kg", "u"⟩]
    (by decide)
    ⟨⟨"Dal", "Grain", "kg", "u"⟩, by decide, by decide, by decide⟩
  exact ⟨h.1, h.2.1, h.2.2 ["error"] ["ok", "error"] (by decide) (by decide)⟩

/-- Claim C8: login writes exactly one serialized record for the session
under the fixed storage key (touching no other key) and sets the in-memory
user to it; the restore-on-mount path parses that record back to the very
same session (serialization is injective, so the round trip is the
identity); logout removes the record under the key and nulls the user. -/
theorem C8_session_login_roundtrip_logout (a : AuthState) (s : UserSession) :
    (login a s).user = some s.toJson
    ∧ storageGet (login a s).storage SESSION_KEY = some (.parsed s.toJson)
    ∧ (login a s).storage.countP (fun e => e.1 == SESSION_KEY) = 1
    ∧ (∀ k, k ≠ SESSION_KEY → storageGet (login a s).storage k = storageGet a.storage k)
    ∧ (restoreOnMount (login a s)).user = some s.toJson
    ∧ (∀ s2 : UserSession, s.toJson = s2.toJson → s = s2)
    ∧ (logout a).user = none
    ∧ storageGet (logout a).storage SESSION_KEY = none := by
  have hget : storageGet (login a s).storage SESSION_KEY = some (.parsed s.toJson) :=
    storageGet_storageSet_self a.storage SESSION_KEY (.parsed s.toJson)
  refine ⟨rfl, hget, ?_, ?_, ?_, ?_, rfl,
    storageGet_storageRemove_self a.storage SESSION_KEY⟩
  · show ((SESSION_KEY, StoredVal.parsed s.toJson) ::
        storageRemove a.storage SESSION_KEY).countP (fun e => e.1 == SESSION_KEY) = 1
    rw [List.countP_cons]
    simp [countP_storageRemove]
  · intro k hk
    show storageGet (storageSet a.storage SESSION_KEY (.parsed s.toJson)) k
        = storageGet a.storage k
    have hne : ¬(SESSION_KEY = k) := fun hc => hk hc.symm
    rw [storageSet]
    simp only [storageGet, hne, if_false]
    exact storageGet_storageRemove_ne a.storage SESSION_KEY k hk
  · simp [restoreOnMount, hget]
  · intro s2 h
    cases s with
    | mk a1 a2 a3 =>
      cases s2 with
      | mk b1 b2 b3 =>
        simp only [UserSession.toJson, Json.obj.injEq, List.cons.injEq, Prod.mk.injEq,
          Json.str.injEq, and_true, true_and] at h
        simp [h.1, h.2.1, h.2.2]

/-- Claim C8 witness at a concrete session over empty storage. -/
theorem C8_session_login_roundtrip_logout_witness :
    (login (initialAuthState []) ⟨"alice", "A1", "admin"⟩).user
      = some (UserSession.toJson ⟨"alice", "A1", "admin"⟩)
    ∧ storageGet (login (initialAuthState []) ⟨"alice", "A1", "admin"⟩).storage SESSION_KEY
      = some (.parsed (UserSession.toJson ⟨"alice", "A1", "admin"⟩))
    ∧ (login (initialAuthState []) ⟨"alice", "A1", "admin"⟩).storage.countP
        (fun e => e.1 == SESSION_KEY) = 1
    ∧ storageGet (login (initialAuthState []) ⟨"alice", "A1", "admin"⟩).storage ("other_key")
      = storageGet (initialAuthState []).storage ("other_key")
    ∧ (restoreOnMount (login (initialAuthState []) ⟨"alice", "A1", "admin"⟩)).user
      = some (UserSession.toJson ⟨"alice", "A1", "admin"⟩)
    ∧ (logout (initialAuthState [])).user = none
    ∧ storageGet (logout (initialAuthState [])).storage SESSION_KEY = none := by
  have h := C8_session_login_roundtrip_logout (initialAuthState []) ⟨"alice", "A1", "admin"⟩
  exact ⟨h.1, h.2.1, h.2.2.1, h.2.2.2.1 ("other_key") (by decide), h.2.2.2.2.1,
    h.2.2.2.2.2.2.1, h.2.2.2.2.2.2.2⟩

/-- Claim C9: selecting a date whose calendar day already appears among the
fetched existing headers clears the selection and shows the duplicate-date
toast; consequently any date still selected after the guard is not among
the fetched existing days, so no header is submitted for one of them. -/
theorem C9_duplicate_date_guard (s : DayReqDialogState) (formatted : String) :
    (isDateAlreadyUsed s.existingRequirements formatted = true →
      (selectDate s formatted).selectedDate = none
      ∧ (selectDate s formatted).duplicateDateToast = true)
    ∧ (∀ d, (selectDate s formatted).selectedDate = some d →
        isDateAlreadyUsed s.existingRequirements d = false) := by
  constructor
  · intro h
    rw [selectDate, if_pos h]
    exact ⟨rfl, rfl⟩
  · intro d hd
    by_cases h : isDateAlreadyUsed s.existingRequirements formatted = true
    · rw [selectDate, if_pos h] at hd
      exact absurd hd (by simp)
    · rw [selectDate, if_neg h] at hd
      have hfd : formatted = d := by
        simpa using hd
      rw [← hfd]
      simpa using h

/-- Claim C9 witness: a date equal to the calendar day of a fetched header
is rejected, clearing the selection and raising the toast. -/
theorem C9_duplicate_date_guard_witness :
    (selectDate ⟨[⟨"2025-01-01T00:00:00", "Briyani", "120"⟩], none, false⟩
        "2025-01-01").selectedDate = none
    ∧ (selectDate ⟨[⟨"2025-01-01T00:00:00", "Briyani", "120"⟩], none, false⟩
        "2025-01-01").duplicateDateToast = true :=
  (C9_duplicate_date_guard ⟨[⟨"2025-01-01T00:00:00", "Briyani", "120"⟩], none, false⟩
    "2025-01-01").1 (by decide)

/-- Claim C10: restoring the persisted session on startup never throws: a
malformed stored record is removed and the user stays null, an absent record
leaves everything unchanged, and in every case the loading flag ends false. -/
theorem C10_restore_never_throws (st : List (String × StoredVal)) :
    (restoreOnMount (initialAuthState st)).isLoading = false
    ∧ (storageGet st SESSION_KEY = some .malformed →
        (restoreOnMount (initialAuthState st)).user = none
        ∧ storageGet (restoreOnMount (initialAuthState st)).storage SESSION_KEY = none)
    ∧ (storageGet st SESSION_KEY = none →
        (restoreOnMount (initialAuthState st)).user = none
        ∧ (restoreOnMount (initialAuthState st)).storage = st) := by
  refine ⟨?_, ?_, ?_⟩
  · rw [restoreOnMount]
  · intro h
    constructor
    · simp [restoreOnMount, initialAuthState, h]
    · simp [restoreOnMount, initialAuthState, h, storageGet_storageRemove_self]
  · intro h
    constructor
    · simp [restoreOnMount, initialAuthState, h]
    · simp [restoreOnMount, initialAuthState, h]

/-- Claim C10 witness: a malformed record under the session key, and an
empty storage. -/
theorem C10_restore_never_throws_witness :
    (restoreOnMount (initialAuthState [(SESSION_KEY, .malformed)])).isLoading = false
    ∧ (restoreOnMount (initialAuthState [(SESSION_KEY, .malformed)])).user = none
    ∧ storageGet (restoreOnMount
        (initialAuthState [(SESSION_KEY, .malformed)])).storage SESSION_KEY = none
    ∧ (restoreOnMount (initialAuthState [])).user = none
    ∧ (restoreOnMount (initialAuthState [])).storage = ([] : List (String × StoredVal)) := by
  have h1 := C10_restore_never_throws [(SESSION_KEY, .malformed)]
  have h2 := C10_restore_never_throws []
  have hm := h1.2.1 (by simp [storageGet])
  have hn := h2.2.2 rfl
  exact ⟨h1.1, hm.1, hm.2, hn.1, hn.2⟩

end FPDA
